import Mathlib

/-!
Verification of the `cleverbot-free` client (`src/index.js`) against its
natural-language specification.

The module-level mutable variables of `index.js` (`debug`, `selectedLanguage`,
`maxRetryAttempts`, `retryBaseCooldown`, `cookieExpirationTime`, `cookies`,
`lastCookieUpdate`, `cbsId`, `xai`, `ns`, `lastResponse`,
`successfulRequestsCount`, `failedRequestsCount`) are embedded as one record
`ModuleState`, and every function is embedded as an explicit state
transformer.  JavaScript numbers are modelled as `Int` (all values the claims
touch are integers), thrown `Error` objects as `JsError` (keeping track of
whether the object carries an axios `response` field, which the ban check in
`interact` inspects), and the network as per-attempt oracles describing what
the remote returns.  `md5` (from `scripts/md5.js`, an external collaborator
per the spec) is threaded through as a function parameter kept abstract by
every theorem, so each statement holds for any digest function.
-/

/-- A JavaScript value that may be supplied for a configuration key:
the setter's `typeof` checks distinguish booleans, numbers and strings. -/
inductive JsValue where
  | bool (b : Bool)
  | num (n : Int)
  | str (s : String)
deriving DecidableEq, Repr

/-- The partial configuration object passed to `CleverBot.config`; `none`
models an absent key (`'k' in config` false).  Unrecognized keys are ignored
by the source, so they are not modelled. -/
structure ConfigInput where
  debug : Option JsValue := none
  defaultLanguage : Option JsValue := none
  maxRetryAttempts : Option JsValue := none
  retryBaseCooldown : Option JsValue := none
  cookieExpirationTime : Option JsValue := none
deriving DecidableEq, Repr

/-- The module-level mutable state of `index.js` (lines 9-23). -/
structure ModuleState where
  debug : Bool
  selectedLanguage : String
  maxRetryAttempts : Int
  retryBaseCooldown : Int
  cookieExpirationTime : Int
  cookies : Option (List String)
  lastCookieUpdate : Int
  cbsId : Option String
  xai : Option String
  ns : Int
  lastResponse : Option String
  successfulRequestsCount : Int
  failedRequestsCount : Int
deriving DecidableEq, Repr

/-- The initial values of the module-level variables (`index.js` lines 9-23). -/
def initialState : ModuleState :=
  { debug := false
    selectedLanguage := "en"
    maxRetryAttempts := 3
    retryBaseCooldown := 3000
    cookieExpirationTime := 15768000
    cookies := none
    lastCookieUpdate := 0
    cbsId := none
    xai := none
    ns := 0
    lastResponse := none
    successfulRequestsCount := 0
    failedRequestsCount := 0 }

/-- Modelled from the spec: the fixed supported-language set loaded from
`scripts/languages.js`, which is not among the provided sources.  The spec
fixes only that it is "a fixed enumerated set of language codes" whose
membership is checked for `defaultLanguage`, that the default `en` belongs to
it, and that `xx-not-real` does not; a representative set of codes is used. -/
def SUPPORTED_LANGUAGES : List String :=
  ["en", "fr", "de", "es", "it", "nl", "pl", "pt", "ru", "ja", "ko", "zh"]

/-- A thrown JavaScript `Error`.  `response` models the axios `err.response`
field (carrying the HTTP status) that `interact`'s ban check reads; errors
constructed with `new Error(message)` in `index.js` never carry it. -/
structure JsError where
  message : String
  response : Option Int
deriving DecidableEq, Repr

/-- The error message of the `debug` branch (index.js line 166). -/
def debugErrMsg : String := "Invalid value for `debug`. It must be a boolean."

/-- Processing of the `debug` key (index.js lines 164-169). -/
def procDebug (v : Option JsValue) (st : ModuleState) : ModuleState × Option String :=
  match v with
  | none => (st, none)
  | some (.bool b) => ({ st with debug := b }, none)
  | some _ => (st, some debugErrMsg)

/-- The error message of the `defaultLanguage` branch (index.js line 174). -/
def defaultLanguageErrMsg : String :=
  "Invalid value for `defaultLanguage`.\nSupported languages are: " ++
    String.intercalate ", " SUPPORTED_LANGUAGES

/-- Processing of the `defaultLanguage` key (index.js lines 171-177). -/
def procLang (v : Option JsValue) (st : ModuleState) : ModuleState × Option String :=
  match v with
  | none => (st, none)
  | some (.str s) =>
      if SUPPORTED_LANGUAGES.contains s then ({ st with selectedLanguage := s }, none)
      else (st, some defaultLanguageErrMsg)
  | some _ => (st, some defaultLanguageErrMsg)

/-- Processing of one positive-number key (index.js lines 179-198 share this
shape): a present value must be a number `> 0`, otherwise the fixed error
message is thrown. -/
def procPosNum (set : Int → ModuleState → ModuleState) (errMsg : String)
    (v : Option JsValue) (st : ModuleState) : ModuleState × Option String :=
  match v with
  | none => (st, none)
  | some (.num n) => if 0 < n then (set n st, none) else (st, some errMsg)
  | some _ => (st, some errMsg)

/-- Sequencing of the key blocks: a thrown error aborts the remaining blocks
but keeps the mutations already performed (module-level `let`s are not rolled
back by a `throw`). -/
def chainCfg (r : ModuleState × Option String)
    (g : ModuleState → ModuleState × Option String) : ModuleState × Option String :=
  match r with
  | (st, none) => g st
  | (st, some e) => (st, some e)

/-- The error message of the `maxRetryAttempts` branch (index.js line 181). -/
def maxRetryAttemptsErrMsg : String :=
  "Invalid value for `maxRetryAttempts`. It must be a positive number."

/-- The error message of the `retryBaseCooldown` branch (index.js line 188). -/
def retryBaseCooldownErrMsg : String :=
  "Invalid value for `retryBaseCooldown`. It must be a positive number."

/-- The error message of the `cookieExpirationTime` branch (index.js line 195). -/
def cookieExpirationTimeErrMsg : String :=
  "Invalid value for `cookieExpirationTime`. It must be a positive number."

/-- `CleverBot.config` (index.js lines 159-199): the recognized keys are
validated and applied one block at a time, in source order
`debug`, `defaultLanguage`, `maxRetryAttempts`, `retryBaseCooldown`,
`cookieExpirationTime`.  The result is the state after the call together with
the thrown error message, if any.  (The initial `typeof config !== 'object'`
guard is outside the model: `ConfigInput` is always an object.) -/
def CleverBot.config (cfg : ConfigInput) (st : ModuleState) : ModuleState × Option String :=
  chainCfg (chainCfg (chainCfg (chainCfg
    (procDebug cfg.debug st)
    (procLang cfg.defaultLanguage))
    (procPosNum (fun n s => { s with maxRetryAttempts := n }) maxRetryAttemptsErrMsg
      cfg.maxRetryAttempts))
    (procPosNum (fun n s => { s with retryBaseCooldown := n }) retryBaseCooldownErrMsg
      cfg.retryBaseCooldown))
    (procPosNum (fun n s => { s with cookieExpirationTime := n }) cookieExpirationTimeErrMsg
      cfg.cookieExpirationTime)

/-- Whether a byte (given as its `Nat` value) is left literal by JavaScript's
`encodeURIComponent`: ASCII alphanumerics and `- _ . ! ~ * ' ( )`. -/
def isUnreservedByte (b : Nat) : Bool :=
  decide ((65 ≤ b ∧ b ≤ 90) ∨ (97 ≤ b ∧ b ≤ 122) ∨ (48 ≤ b ∧ b ≤ 57) ∨
    b ∈ [45, 95, 46, 33, 126, 42, 39, 40, 41])

/-- The uppercase hexadecimal digit of a value `< 16`. -/
def hexDigit (n : Nat) : Char :=
  if n < 10 then Char.ofNat (48 + n) else Char.ofNat (55 + n)

/-- Percent-encoding of one byte, `%XX` with uppercase hex digits. -/
def percentEncodeByte (b : Nat) : List Char :=
  ['%', hexDigit (b / 16), hexDigit (b % 16)]

/-- JavaScript's `encodeURIComponent`: the string's UTF-8 bytes, unreserved
bytes kept literal and every other byte percent-encoded. -/
def encodeURIComponent (s : String) : String :=
  String.mk (s.toUTF8.toList.flatMap fun b =>
    if isUnreservedByte b.toNat then [Char.ofNat b.toNat] else percentEncodeByte b.toNat)

/-- JavaScript's `String.prototype.substring(a, b)` at the call site of
index.js line 45 (`a ≤ b`): the characters at indices `a` to `b - 1`. -/
def jsSubstring (s : String) (a b : Nat) : String :=
  ((s.data.drop a).take (b - a)).asString

/-- The `vText<i>=<url-encoded entry>&` fields appended by the
`context.reverse().forEach` loop (index.js lines 40-42), in emission order:
the history is reversed and field `i` carries the entry at 0-based position
`i` of the reversed history. -/
def vTextFields (context : List String) : List String :=
  context.reverse.enum.map fun p =>
    "vText" ++ toString p.1 ++ "=" ++ encodeURIComponent p.2 ++ "&"

/-- The payload built by index.js lines 38-44, before the self-append and
checksum of line 45: stimulus field, vText fields, optional language field
(the JS truthiness test `language ?` is modelled as `≠ ""`, with the absent
language represented by `""`), then the fixed literal fields. -/
def preChecksumPayload (stimulus : String) (context : List String) (language : String) : String :=
  "stimulus=" ++ encodeURIComponent stimulus ++ "&" ++
    String.join (vTextFields context) ++
    (if language ≠ "" then "cb_config_language=" ++ language ++ "&" else "") ++
    "cb_config_scripting=no&islearning=1&icognoid=wsf&icognocheck="

/-- `buildMainPayload` (index.js lines 37-49).  Line 45 performs
`payload += payload + md5(payload.substring(7, 33))`.  The call to
`context.reverse()` on line 40 mutates the caller's array in place; the
second component of the result is the value of that array after the call. -/
def buildMainPayload (md5fn : String → String) (stimulus : String)
    (context : List String) (language : String) : String × List String :=
  let payload := preChecksumPayload stimulus context language
  (payload ++ (payload ++ md5fn (jsSubstring payload 7 33)), context.reverse)

/-- `CleverBot.newSession` (index.js lines 201-210): resets the six session
fields to their initial values. -/
def CleverBot.newSession (st : ModuleState) : ModuleState :=
  { st with
    cookies := none
    lastCookieUpdate := 0
    cbsId := none
    xai := none
    ns := 0
    lastResponse := none }

/-- What the cookie-bootstrap GET of `updateCookiesIfNeeded` would do if
issued: succeed with the response's `set-cookie` values, or fail with an
axios error (whose `response.status`, when present, is `status`). -/
inductive CookieFetchResult where
  | success (setCookies : List String)
  | failure (status : Option Int) (message : String)
deriving DecidableEq, Repr

/-- What the main POST of `callCleverbotAPI` would do if issued: resolve with
a body (axios's `data`, possibly empty), or reject with an axios error. -/
inductive ApiResult where
  | response (data : String)
  | netError (status : Option Int) (message : String)
deriving DecidableEq, Repr

/-- The environment of one attempt: the current clock value (`Date.now()`)
and the outcomes the network would produce for the two possible calls. -/
structure AttemptOracle where
  now : Int
  cookieResult : CookieFetchResult
  apiResult : ApiResult
deriving Repr

/-- Result of `updateCookiesIfNeeded`: the state after the call, whether the
GET was actually issued, and the thrown error, if any. -/
structure CookieUpdateResult where
  state : ModuleState
  fetched : Bool
  err : Option JsError
deriving Repr

/-- `updateCookiesIfNeeded` (index.js lines 52-86).  If a cookie jar exists
and is within its validity window, no-op; otherwise one GET: on success the
jar and timestamp are replaced and `successfulRequestsCount` incremented; on
failure `failedRequestsCount` is incremented and a `new Error(...)` is thrown
(note: the thrown object carries no `response` field, even in the
403/banned branch of line 81). -/
def updateCookiesIfNeeded (o : AttemptOracle) (st : ModuleState) : CookieUpdateResult :=
  if st.cookies.isSome ∧ o.now - st.lastCookieUpdate < st.cookieExpirationTime then
    ⟨st, false, none⟩
  else
    match o.cookieResult with
    | .success cs =>
        ⟨{ st with
            successfulRequestsCount := st.successfulRequestsCount + 1
            cookies := some cs
            lastCookieUpdate := o.now }, true, none⟩
    | .failure status msg =>
        let st1 := { st with failedRequestsCount := st.failedRequestsCount + 1 }
        if status = some 403 then
          ⟨st1, true,
            some ⟨"Error code 403. Cookies cannot be updated because your IP address has been banned.", none⟩⟩
        else
          ⟨st1, true, some ⟨"Failed to update cookies. " ++ msg, none⟩⟩

/-- How a promise of this module settles: resolved with a value (`none`
models resolving with `undefined`), or rejected with a thrown error. -/
inductive Settled where
  | resolved (v : Option String)
  | rejected (e : JsError)
deriving DecidableEq, Repr

/-- JavaScript's `String.prototype.split` with a one-character separator,
applied to the list of characters: splits on every occurrence, yielding
`n + 1` pieces for `n` occurrences (so the empty string yields `[""]`). -/
def splitChars (sep : Char) : List Char → List (List Char)
  | [] => [[]]
  | c :: cs =>
    let r := splitChars sep cs
    if c = sep then [] :: r
    else
      match r with
      | [] => [[c]]
      | h :: t => (c :: h) :: t

/-- `data.split('\r')` of index.js line 120. -/
def splitOnCR (s : String) : List String :=
  (splitChars '\r' s.data).map List.asString

/-- Result of one `callCleverbotAPI` attempt: the settled value of the
promise (`resolved none` when the function falls off the end and resolves
with `undefined`), the state and the caller's context array after the call,
whether the POST was issued, whether a cookie GET was issued, and (when the
payload build was reached) the context array value that the build consumed. -/
structure CallOutcome where
  result : Settled
  state : ModuleState
  context : List String
  didPost : Bool
  didFetch : Bool
  builtFrom : Option (List String)
deriving Repr

/-- `callCleverbotAPI` (index.js lines 89-134).  Cookie refresh first (an
error there propagates and skips everything else); then the payload build
(reversing `context` in place) and `ns += 1`; then the POST.  A rejected
POST, and an empty body, are caught by the `catch` of line 129, increment
`failedRequestsCount` and re-throw `new Error('Cleverbot API call failed: ...')`
— a plain error without a `response` field.  A non-empty body increments
`successfulRequestsCount` and is split on `'\r'`: with at least 3 segments
the session trio is stored and segment 0 returned; with fewer the function
only logs and resolves with `undefined` (`resolved none`). -/
def callCleverbotAPI (md5fn : String → String) (stimulus : String)
    (context : List String) (language : String) (o : AttemptOracle)
    (st : ModuleState) : CallOutcome :=
  let u := updateCookiesIfNeeded o st
  match u.err with
  | some e => ⟨.rejected e, u.state, context, false, u.fetched, none⟩
  | none =>
    let st1 := u.state
    let context1 := (buildMainPayload md5fn stimulus context language).2
    let st2 := { st1 with ns := st1.ns + 1 }
    match o.apiResult with
    | .netError _ msg =>
        ⟨.rejected ⟨"Cleverbot API call failed: " ++ msg, none⟩,
          { st2 with failedRequestsCount := st2.failedRequestsCount + 1 },
          context1, true, u.fetched, some context⟩
    | .response data =>
        if hdata : data = "" then
          ⟨.rejected ⟨"Cleverbot API call failed: The response from Cleverbot API is empty: " ++ data, none⟩,
            { st2 with failedRequestsCount := st2.failedRequestsCount + 1 },
            context1, true, u.fetched, some context⟩
        else
          let st3 := { st2 with successfulRequestsCount := st2.successfulRequestsCount + 1 }
          let responseLines := splitOnCR data
          if hlen : 3 ≤ responseLines.length then
            let cbsId := responseLines.get ⟨1, by omega⟩
            let st4 := { st3 with
              cbsId := some cbsId
              xai := some (cbsId.take 3 ++ "," ++ responseLines.get ⟨2, by omega⟩)
              lastResponse := some (responseLines.get ⟨0, by omega⟩) }
            ⟨.resolved (some (responseLines.get ⟨0, by omega⟩)), st4, context1, true, u.fetched, some context⟩
          else
            ⟨.resolved none, st3, context1, true, u.fetched, some context⟩

/-- Result of a run of `CleverBot.interact`: the settled value of the
promise, the final state, the caller's context array after the run, the
backoff delays slept (in order), how many POSTs and cookie GETs were issued,
and the context array values consumed by the payload builds, in order. -/
structure InteractOutcome where
  result : Settled
  state : ModuleState
  context : List String
  sleeps : List Int
  posts : Nat
  cookieFetches : Nat
  builtFrom : List (List String)
deriving Repr

/-- The retry loop of `CleverBot.interact` (index.js lines 140-156).
`i` is the 0-based attempt index, `fuel` the attempts remaining,
`oracles i` the environment of attempt `i`, `jit i` the draw
`Math.floor(Math.random() * 2000)` of attempt `i`, and `rnd i` the draw
`Math.floor(Math.random() * 3000)`.  A failed attempt whose error carries
`response.status === 403` aborts with the banned error of line 145; any
other failure sleeps `retryBaseCooldown + jit i + 1000 + incrementalDelay`
and then grows `incrementalDelay` by `rnd i + 1000`.  Exhausted fuel throws
the error of line 156. -/
def interactLoop (md5fn : String → String) (stimulus language : String)
    (oracles : Nat → AttemptOracle) (jit rnd : Nat → Nat) :
    Nat → Nat → Int → List String → ModuleState →
    List Int → Nat → Nat → List (List String) → InteractOutcome
  | i, fuel + 1, incrementalDelay, context, st, sleeps, posts, fetches, builds =>
    let c := callCleverbotAPI md5fn stimulus context language (oracles i) st
    let posts1 := posts + (if c.didPost then 1 else 0)
    let fetches1 := fetches + (if c.didFetch then 1 else 0)
    let builds1 := builds ++ (match c.builtFrom with | some b => [b] | none => [])
    match c.result with
    | .resolved v => ⟨.resolved v, c.state, c.context, sleeps, posts1, fetches1, builds1⟩
    | .rejected e =>
      if e.response = some 403 then
        ⟨.rejected ⟨"Attempt " ++ toString (i + 1) ++
            " failed: Error code 403. The response could not be obtained because your IP address has been banned.", none⟩,
          c.state, c.context, sleeps, posts1, fetches1, builds1⟩
      else
        let waitTime : Int := c.state.retryBaseCooldown + (jit i : Int) + 1000 + incrementalDelay
        interactLoop md5fn stimulus language oracles jit rnd
          (i + 1) fuel (incrementalDelay + ((rnd i : Int) + 1000))
          c.context c.state (sleeps ++ [waitTime]) posts1 fetches1 builds1
  | _, 0, _, context, st, sleeps, posts, fetches, builds =>
    ⟨.rejected ⟨"Failed to get a response from Cleverbot after " ++
        toString st.maxRetryAttempts ++ " attempts.", none⟩,
      st, context, sleeps, posts, fetches, builds⟩

/-- `CleverBot.interact` (index.js lines 137-157).  The `language` parameter
defaults to `selectedLanguage` when omitted, `incrementalDelay` starts at 0,
and the loop runs at most `maxRetryAttempts` times. -/
def CleverBot.interact (md5fn : String → String) (stimulus : String)
    (context : List String) (language : Option String)
    (oracles : Nat → AttemptOracle) (jit rnd : Nat → Nat)
    (st : ModuleState) : InteractOutcome :=
  interactLoop md5fn stimulus (language.getD st.selectedLanguage) oracles jit rnd
    0 st.maxRetryAttempts.toNat 0 context st [] 0 0 []

/-- A state whose cookie jar is present and fresh at clock value 0, so no
attempt needs the bootstrap GET. -/
def freshCookieState : ModuleState :=
  { initialState with cookies := some ["XVIS=abc; path=/"] }

/-- `freshCookieState` with `maxRetryAttempts` raised to 5 (the spec's ban
short-circuit scenario). -/
def freshCookieState5 : ModuleState :=
  { freshCookieState with maxRetryAttempts := 5 }

/-- An environment in which every POST is rejected with HTTP 403. -/
def forbiddenOracle : Nat → AttemptOracle :=
  fun _ => ⟨0, .success [], .netError (some 403) "Request failed with status code 403"⟩

/-- An environment in which every POST resolves with a two-segment body. -/
def malformedOracle : Nat → AttemptOracle :=
  fun _ => ⟨0, .success [], .response "Hello.\rWXC0ABC"⟩

/-- An environment in which every POST is rejected with a timeout. -/
def timeoutOracle : Nat → AttemptOracle :=
  fun _ => ⟨0, .success [], .netError none "timeout of 20000ms exceeded"⟩

/-- The digest stub used by the concrete runs; no theorem depends on its
values. -/
def md5Stub : String → String := fun _ => ""

/-- Whether a supplied `debug` value passes the `typeof` check of line 165. -/
def debugValid : Option JsValue → Bool
  | none => true
  | some (.bool _) => true
  | some _ => false

/-- Whether a supplied `defaultLanguage` value passes the check of line 173. -/
def langValid : Option JsValue → Bool
  | none => true
  | some (.str s) => SUPPORTED_LANGUAGES.contains s
  | some _ => false

/-- Whether a supplied positive-number value passes a check of the shape of
line 180. -/
def posNumValid : Option JsValue → Bool
  | none => true
  | some (.num n) => decide (0 < n)
  | some _ => false

/-- The state change the `debug` block performs when it does not throw. -/
def applyDebug (v : Option JsValue) (st : ModuleState) : ModuleState :=
  match v with
  | some (.bool b) => { st with debug := b }
  | _ => st

/-- The state change the `defaultLanguage` block performs when it does not
throw. -/
def applyLang (v : Option JsValue) (st : ModuleState) : ModuleState :=
  match v with
  | some (.str s) =>
      if SUPPORTED_LANGUAGES.contains s then { st with selectedLanguage := s } else st
  | _ => st

/-- The state change a positive-number block performs when it does not throw. -/
def applyPosNum (set : Int → ModuleState → ModuleState) (v : Option JsValue)
    (st : ModuleState) : ModuleState :=
  match v with
  | some (.num n) => if 0 < n then set n st else st
  | _ => st

/-- Two states agree on the session trio `cbsId`, `xai`, `lastResponse`. -/
def sessionTrioEq (a b : ModuleState) : Prop :=
  a.cbsId = b.cbsId ∧ a.xai = b.xai ∧ a.lastResponse = b.lastResponse

/-- The states reachable from the initial module state by any sequence of
the module's state-changing operations: configuration calls, session resets,
and single exchanges (`CleverBot.interact` is a sequence of such exchanges
interleaved with sleeps, and sleeping does not change the state, so every
state an `interact` run passes through is reachable by `callStep`s). -/
inductive Reachable : ModuleState → Prop where
  | init : Reachable initialState
  | cfgStep (cfg : ConfigInput) {st : ModuleState} :
      Reachable st → Reachable (CleverBot.config cfg st).1
  | resetStep {st : ModuleState} :
      Reachable st → Reachable (CleverBot.newSession st)
  | callStep (md5fn : String → String) (stimulus : String) (context : List String)
      (language : String) (o : AttemptOracle) {st : ModuleState} :
      Reachable st → Reachable (callCleverbotAPI md5fn stimulus context language o st).state

/-- The value of `incrementalDelay` at the start of attempt `i + k`, for a
loop that entered attempt `i` with `incrementalDelay = 0`: the sum of
`rnd j + 1000` over the `k` attempts `j = i, ..., i + k - 1`. -/
def incFrom (rnd : Nat → Nat) : Nat → Nat → Nat
  | _, 0 => 0
  | i, k + 1 => (rnd i + 1000) + incFrom rnd (i + 1) k

/-- The spec's `incrementalDelay` closed form: its value at the start of
attempt `k` (0-based), starting from 0 at attempt 0. -/
def incDelaySpec (rnd : Nat → Nat) (k : Nat) : Nat := incFrom rnd 0 k

/-- The context-array values consumed by the successive payload builds of a
run whose every attempt reaches the build: the array alternates between the
original value and its reverse (each build reverses it in place). -/
def altFrom (c : List String) : Nat → List (List String)
  | 0 => []
  | n + 1 => c :: altFrom c.reverse n

/-- The caller's context array after `n` in-place reversals. -/
def revPow (c : List String) : Nat → List String
  | 0 => c
  | n + 1 => revPow c.reverse n

lemma chainCfg_ok (st : ModuleState) (g : ModuleState → ModuleState × Option String) :
    chainCfg (st, none) g = g st := rfl

lemma chainCfg_err (st : ModuleState) (e : String)
    (g : ModuleState → ModuleState × Option String) :
    chainCfg (st, some e) g = (st, some e) := rfl

lemma procDebug_valid (v : Option JsValue) (st : ModuleState) (h : debugValid v = true) :
    procDebug v st = (applyDebug v st, none) := by
  cases v with
  | none => rfl
  | some jv =>
    cases jv with
    | bool b => rfl
    | num n => simp [debugValid] at h
    | str s => simp [debugValid] at h

lemma procDebug_invalid (v : Option JsValue) (st : ModuleState) (h : debugValid v = false) :
    procDebug v st = (st, some debugErrMsg) := by
  cases v with
  | none => simp [debugValid] at h
  | some jv =>
    cases jv with
    | bool b => simp [debugValid] at h
    | num n => rfl
    | str s => rfl

lemma procLang_valid (v : Option JsValue) (st : ModuleState) (h : langValid v = true) :
    procLang v st = (applyLang v st, none) := by
  cases v with
  | none => rfl
  | some jv =>
    cases jv with
    | bool b => simp [langValid] at h
    | num n => simp [langValid] at h
    | str s =>
      simp only [langValid] at h
      have hmem : s ∈ SUPPORTED_LANGUAGES := by simpa using h
      simp [procLang, applyLang, hmem]

lemma procLang_invalid (v : Option JsValue) (st : ModuleState) (h : langValid v = false) :
    procLang v st = (st, some defaultLanguageErrMsg) := by
  cases v with
  | none => simp [langValid] at h
  | some jv =>
    cases jv with
    | bool b => rfl
    | num n => rfl
    | str s =>
      simp only [langValid] at h
      have hmem : s ∉ SUPPORTED_LANGUAGES := by simpa using h
      simp [procLang, hmem]

lemma procPosNum_valid (set : Int → ModuleState → ModuleState) (errMsg : String)
    (v : Option JsValue) (st : ModuleState) (h : posNumValid v = true) :
    procPosNum set errMsg v st = (applyPosNum set v st, none) := by
  cases v with
  | none => rfl
  | some jv =>
    cases jv with
    | bool b => simp [posNumValid] at h
    | num n =>
      simp only [posNumValid, decide_eq_true_eq] at h
      simp [procPosNum, applyPosNum, h]
    | str s => simp [posNumValid] at h

lemma procPosNum_invalid (set : Int → ModuleState → ModuleState) (errMsg : String)
    (v : Option JsValue) (st : ModuleState) (h : posNumValid v = false) :
    procPosNum set errMsg v st = (st, some errMsg) := by
  cases v with
  | none => simp [posNumValid] at h
  | some jv =>
    cases jv with
    | bool b => rfl
    | num n =>
      simp only [posNumValid, decide_eq_false_iff_not] at h
      simp [procPosNum, h]
    | str s => rfl

/-- What `CleverBot.config` computes, by first failing key: the blocks run in
source order, the first invalid key throws with its message, and the state
keeps exactly the mutations of the blocks that ran before the throw. -/
lemma config_characterization (cfg : ConfigInput) (st : ModuleState) :
    CleverBot.config cfg st =
      if debugValid cfg.debug = false then (st, some debugErrMsg)
      else if langValid cfg.defaultLanguage = false then
        (applyDebug cfg.debug st, some defaultLanguageErrMsg)
      else if posNumValid cfg.maxRetryAttempts = false then
        (applyLang cfg.defaultLanguage (applyDebug cfg.debug st), some maxRetryAttemptsErrMsg)
      else if posNumValid cfg.retryBaseCooldown = false then
        (applyPosNum (fun n s => { s with maxRetryAttempts := n }) cfg.maxRetryAttempts
          (applyLang cfg.defaultLanguage (applyDebug cfg.debug st)), some retryBaseCooldownErrMsg)
      else if posNumValid cfg.cookieExpirationTime = false then
        (applyPosNum (fun n s => { s with retryBaseCooldown := n }) cfg.retryBaseCooldown
          (applyPosNum (fun n s => { s with maxRetryAttempts := n }) cfg.maxRetryAttempts
            (applyLang cfg.defaultLanguage (applyDebug cfg.debug st))), some cookieExpirationTimeErrMsg)
      else
        (applyPosNum (fun n s => { s with cookieExpirationTime := n }) cfg.cookieExpirationTime
          (applyPosNum (fun n s => { s with retryBaseCooldown := n }) cfg.retryBaseCooldown
            (applyPosNum (fun n s => { s with maxRetryAttempts := n }) cfg.maxRetryAttempts
              (applyLang cfg.defaultLanguage (applyDebug cfg.debug st)))), none) := by
  unfold CleverBot.config
  cases hd : debugValid cfg.debug with
  | false =>
    rw [procDebug_invalid _ _ hd, chainCfg_err, chainCfg_err, chainCfg_err, chainCfg_err]
    simp [hd]
  | true =>
    rw [procDebug_valid _ _ hd, chainCfg_ok]
    cases hl : langValid cfg.defaultLanguage with
    | false =>
      rw [procLang_invalid _ _ hl, chainCfg_err, chainCfg_err, chainCfg_err]
      simp [hd, hl]
    | true =>
      rw [procLang_valid _ _ hl, chainCfg_ok]
      cases hm : posNumValid cfg.maxRetryAttempts with
      | false =>
        rw [procPosNum_invalid _ _ _ _ hm, chainCfg_err, chainCfg_err]
        simp [hd, hl, hm]
      | true =>
        rw [procPosNum_valid _ _ _ _ hm, chainCfg_ok]
        cases hr : posNumValid cfg.retryBaseCooldown with
        | false =>
          rw [procPosNum_invalid _ _ _ _ hr, chainCfg_err]
          simp [hd, hl, hm, hr]
        | true =>
          rw [procPosNum_valid _ _ _ _ hr, chainCfg_ok]
          cases hc : posNumValid cfg.cookieExpirationTime with
          | false =>
            rw [procPosNum_invalid _ _ _ _ hc]
            simp [hd, hl, hm, hr, hc]
          | true =>
            rw [procPosNum_valid _ _ _ _ hc]
            simp [hd, hl, hm, hr, hc]

/-- C1 counterexample: at the concrete call
`config({debug: true, maxRetryAttempts: -1})` from the initial state, the
update fails (with the `maxRetryAttempts` error) and yet the valid
recognized key `debug` HAS been mutated from `false` to `true` — the update
is not atomic. -/
theorem C1_counterexample_valid_key_mutated :
    (CleverBot.config { debug := some (.bool true), maxRetryAttempts := some (.num (-1)) }
      initialState).2 = some maxRetryAttemptsErrMsg ∧
    (CleverBot.config { debug := some (.bool true), maxRetryAttempts := some (.num (-1)) }
      initialState).1.debug = true ∧
    initialState.debug = false := by decide

/-- C1 amended: the config setter validates and applies the recognized keys
one block at a time in source order (`debug`, `defaultLanguage`,
`maxRetryAttempts`, `retryBaseCooldown`, `cookieExpirationTime`).  The call
succeeds iff every supplied recognized key is valid; otherwise it fails with
the descriptive error of the first invalid key, the settings of that key and
of every key after it in that order are left unchanged, but the valid
recognized keys processed before it HAVE been applied (the update is
sequential, not atomic). -/
theorem C1_config_rejects_sequentially_not_atomically (cfg : ConfigInput) (st : ModuleState) :
    ((CleverBot.config cfg st).2 = none ↔
      (debugValid cfg.debug = true ∧ langValid cfg.defaultLanguage = true ∧
       posNumValid cfg.maxRetryAttempts = true ∧ posNumValid cfg.retryBaseCooldown = true ∧
       posNumValid cfg.cookieExpirationTime = true)) ∧
    (debugValid cfg.debug = false →
      CleverBot.config cfg st = (st, some debugErrMsg)) ∧
    (debugValid cfg.debug = true → langValid cfg.defaultLanguage = false →
      CleverBot.config cfg st = (applyDebug cfg.debug st, some defaultLanguageErrMsg)) ∧
    (debugValid cfg.debug = true → langValid cfg.defaultLanguage = true →
      posNumValid cfg.maxRetryAttempts = false →
      CleverBot.config cfg st =
        (applyLang cfg.defaultLanguage (applyDebug cfg.debug st), some maxRetryAttemptsErrMsg)) ∧
    (debugValid cfg.debug = true → langValid cfg.defaultLanguage = true →
      posNumValid cfg.maxRetryAttempts = true → posNumValid cfg.retryBaseCooldown = false →
      CleverBot.config cfg st =
        (applyPosNum (fun n s => { s with maxRetryAttempts := n }) cfg.maxRetryAttempts
          (applyLang cfg.defaultLanguage (applyDebug cfg.debug st)),
         some retryBaseCooldownErrMsg)) ∧
    (debugValid cfg.debug = true → langValid cfg.defaultLanguage = true →
      posNumValid cfg.maxRetryAttempts = true → posNumValid cfg.retryBaseCooldown = true →
      posNumValid cfg.cookieExpirationTime = false →
      CleverBot.config cfg st =
        (applyPosNum (fun n s => { s with retryBaseCooldown := n }) cfg.retryBaseCooldown
          (applyPosNum (fun n s => { s with maxRetryAttempts := n }) cfg.maxRetryAttempts
            (applyLang cfg.defaultLanguage (applyDebug cfg.debug st))),
         some cookieExpirationTimeErrMsg)) := by
  have hc := config_characterization cfg st
  refine ⟨?_, ?_, ?_, ?_, ?_, ?_⟩
  · rw [hc]
    split_ifs with h1 h2 h3 h4 h5 <;> simp_all
  · intro h1; rw [hc]; simp [h1]
  · intro h1 h2; rw [hc]; simp [h1, h2]
  · intro h1 h2 h3; rw [hc]; simp [h1, h2, h3]
  · intro h1 h2 h3 h4; rw [hc]; simp [h1, h2, h3, h4]
  · intro h1 h2 h3 h4 h5; rw [hc]; simp [h1, h2, h3, h4, h5]

/-- C1 witness: the amended theorem applied at the counterexample's input,
discharging the hypotheses of its third conjunct: the `maxRetryAttempts`
error is thrown and the already-processed `debug` key is applied. -/
theorem C1_config_rejects_sequentially_not_atomically_witness :
    CleverBot.config { debug := some (.bool true), maxRetryAttempts := some (.num (-1)) }
      initialState =
      (applyLang none (applyDebug (some (.bool true)) initialState),
        some maxRetryAttemptsErrMsg) :=
  (C1_config_rejects_sequentially_not_atomically
    { debug := some (.bool true), maxRetryAttempts := some (.num (-1)) }
    initialState).2.2.2.1 (by decide) (by decide) (by decide)

lemma sessionTrioEq_trans {a b c : ModuleState}
    (h1 : sessionTrioEq a b) (h2 : sessionTrioEq b c) : sessionTrioEq a c :=
  ⟨h1.1.trans h2.1, h1.2.1.trans h2.2.1, h1.2.2.trans h2.2.2⟩

lemma applyDebug_trio (v : Option JsValue) (st : ModuleState) :
    sessionTrioEq (applyDebug v st) st := by
  cases v with
  | none => exact ⟨rfl, rfl, rfl⟩
  | some jv => cases jv <;> exact ⟨rfl, rfl, rfl⟩

lemma applyLang_trio (v : Option JsValue) (st : ModuleState) :
    sessionTrioEq (applyLang v st) st := by
  cases v with
  | none => exact ⟨rfl, rfl, rfl⟩
  | some jv =>
    cases jv with
    | str s =>
      dsimp only [applyLang]
      split
      · exact ⟨rfl, rfl, rfl⟩
      · exact ⟨rfl, rfl, rfl⟩
    | bool b => exact ⟨rfl, rfl, rfl⟩
    | num n => exact ⟨rfl, rfl, rfl⟩

lemma applyPosNum_trio (set : Int → ModuleState → ModuleState)
    (hset : ∀ n s, sessionTrioEq (set n s) s) (v : Option JsValue) (st : ModuleState) :
    sessionTrioEq (applyPosNum set v st) st := by
  cases v with
  | none => exact ⟨rfl, rfl, rfl⟩
  | some jv =>
    cases jv with
    | num n =>
      dsimp only [applyPosNum]
      split
      · exact hset n st
      · exact ⟨rfl, rfl, rfl⟩
    | bool b => exact ⟨rfl, rfl, rfl⟩
    | str s => exact ⟨rfl, rfl, rfl⟩

/-- The config setter never touches the session trio. -/
lemma config_trio (cfg : ConfigInput) (st : ModuleState) :
    sessionTrioEq (CleverBot.config cfg st).1 st := by
  have h1 := applyPosNum_trio (fun n s => { s with maxRetryAttempts := n })
    (fun _ _ => ⟨rfl, rfl, rfl⟩)
  have h2 := applyPosNum_trio (fun n s => { s with retryBaseCooldown := n })
    (fun _ _ => ⟨rfl, rfl, rfl⟩)
  have h3 := applyPosNum_trio (fun n s => { s with cookieExpirationTime := n })
    (fun _ _ => ⟨rfl, rfl, rfl⟩)
  rw [config_characterization]
  split_ifs
  · exact ⟨rfl, rfl, rfl⟩
  · exact applyDebug_trio _ _
  · exact sessionTrioEq_trans (applyLang_trio _ _) (applyDebug_trio _ _)
  · exact sessionTrioEq_trans (h1 _ _)
      (sessionTrioEq_trans (applyLang_trio _ _) (applyDebug_trio _ _))
  · exact sessionTrioEq_trans (h2 _ _)
      (sessionTrioEq_trans (h1 _ _)
        (sessionTrioEq_trans (applyLang_trio _ _) (applyDebug_trio _ _)))
  · exact sessionTrioEq_trans (h3 _ _)
      (sessionTrioEq_trans (h2 _ _)
        (sessionTrioEq_trans (h1 _ _)
          (sessionTrioEq_trans (applyLang_trio _ _) (applyDebug_trio _ _))))

/-- The cookie refresh never touches the session trio. -/
lemma updateCookiesIfNeeded_trio (o : AttemptOracle) (st : ModuleState) :
    sessionTrioEq (updateCookiesIfNeeded o st).state st := by
  dsimp only [updateCookiesIfNeeded]
  split
  · exact ⟨rfl, rfl, rfl⟩
  · split
    · exact ⟨rfl, rfl, rfl⟩
    · split
      · exact ⟨rfl, rfl, rfl⟩
      · exact ⟨rfl, rfl, rfl⟩

/-- One exchange either leaves the session trio exactly as it was (any
failure path, and the malformed-response fall-through) or sets all three
fields at once (the well-formed success path of index.js lines 122-124). -/
lemma callCleverbotAPI_trio (md5fn : String → String) (stimulus : String)
    (context : List String) (language : String) (o : AttemptOracle) (st : ModuleState) :
    sessionTrioEq (callCleverbotAPI md5fn stimulus context language o st).state st ∨
    ((callCleverbotAPI md5fn stimulus context language o st).state.cbsId.isSome = true ∧
     (callCleverbotAPI md5fn stimulus context language o st).state.xai.isSome = true ∧
     (callCleverbotAPI md5fn stimulus context language o st).state.lastResponse.isSome = true) := by
  have hu := updateCookiesIfNeeded_trio o st
  simp only [callCleverbotAPI]
  split
  · exact Or.inl hu
  · split
    · exact Or.inl hu
    · split
      · exact Or.inl hu
      · split
        · exact Or.inr ⟨rfl, rfl, rfl⟩
        · exact Or.inl hu

/-- C7: in every reachable state, `cbsId` (session id), `xai` (exchange auth
token) and `lastResponse` (last reply) are all unset or all set: they are
assigned only together by a successful well-formed response and cleared only
together by `newSession`. -/
theorem C7_session_trio_all_or_none (st : ModuleState) (h : Reachable st) :
    (st.cbsId = none ∧ st.xai = none ∧ st.lastResponse = none) ∨
    (st.cbsId.isSome = true ∧ st.xai.isSome = true ∧ st.lastResponse.isSome = true) := by
  induction h with
  | init => exact Or.inl ⟨rfl, rfl, rfl⟩
  | cfgStep cfg _ ih =>
    obtain ⟨e1, e2, e3⟩ := config_trio cfg _
    rw [e1, e2, e3]
    exact ih
  | resetStep _ ih => exact Or.inl ⟨rfl, rfl, rfl⟩
  | callStep md5fn stimulus context language o _ ih =>
    rcases callCleverbotAPI_trio md5fn stimulus context language o _ with ⟨e1, e2, e3⟩ | hsome
    · rw [e1, e2, e3]
      exact ih
    · exact Or.inr hsome

/-- C7 witness: the invariant applied at the initial state. -/
theorem C7_session_trio_all_or_none_witness :
    (initialState.cbsId = none ∧ initialState.xai = none ∧
      initialState.lastResponse = none) ∨
    (initialState.cbsId.isSome = true ∧ initialState.xai.isSome = true ∧
      initialState.lastResponse.isSome = true) :=
  C7_session_trio_all_or_none initialState Reachable.init

lemma incFrom_succ_right (rnd : Nat → Nat) (i k : Nat) :
    incFrom rnd i (k + 1) = incFrom rnd i k + (rnd (i + k) + 1000) := by
  induction k generalizing i with
  | zero => simp [incFrom]
  | succ k ih =>
    rw [incFrom, ih (i + 1), incFrom]
    have harg : i + 1 + k = i + (k + 1) := by omega
    rw [harg]
    omega

lemma incDelaySpec_succ (rnd : Nat → Nat) (k : Nat) :
    incDelaySpec rnd (k + 1) = incDelaySpec rnd k + (rnd k + 1000) := by
  have h := incFrom_succ_right rnd 0 k
  simpa [incDelaySpec] using h

lemma altFrom_length (c : List String) (n : Nat) : (altFrom c n).length = n := by
  induction n generalizing c with
  | zero => rfl
  | succ n ih => simp [altFrom, ih]

lemma altFrom_get (c : List String) (n k : Nat) (h : k < (altFrom c n).length) :
    (altFrom c n).get ⟨k, h⟩ = if k % 2 = 0 then c else c.reverse := by
  induction n generalizing c k with
  | zero => simp [altFrom] at h
  | succ n ih =>
    cases k with
    | zero => rfl
    | succ k =>
      have h' : k < (altFrom c.reverse n).length := by
        simpa [altFrom] using h
      have hstep : (altFrom c (n + 1)).get ⟨k + 1, h⟩ = (altFrom c.reverse n).get ⟨k, h'⟩ := rfl
      rw [hstep, ih]
      by_cases hk : k % 2 = 0
      · have hk1 : (k + 1) % 2 ≠ 0 := by omega
        simp [hk, hk1]
      · have hk1 : (k + 1) % 2 = 0 := by omega
        simp [hk, hk1]

lemma revPow_eq (c : List String) (n : Nat) :
    revPow c n = if n % 2 = 0 then c else c.reverse := by
  induction n generalizing c with
  | zero => simp [revPow]
  | succ n ih =>
    rw [revPow, ih]
    by_cases h : n % 2 = 0
    · have h1 : (n + 1) % 2 ≠ 0 := by omega
      simp [h, h1]
    · have h1 : (n + 1) % 2 = 0 := by omega
      simp [h, h1]

/-- One exchange on a fresh cookie jar whose POST is rejected by the
network: the attempt reverses the context, bumps `ns` and the failure
counter, and rethrows the wrapped error — which carries no `response`
field. -/
lemma callCleverbotAPI_netError (md5fn : String → String) (s : String) (c : List String)
    (lang : String) (o : AttemptOracle) (st : ModuleState) (status : Option Int) (msg : String)
    (hfresh : st.cookies.isSome = true)
    (hnow : o.now - st.lastCookieUpdate < st.cookieExpirationTime)
    (hapi : o.apiResult = .netError status msg) :
    callCleverbotAPI md5fn s c lang o st =
      ⟨.rejected ⟨"Cleverbot API call failed: " ++ msg, none⟩,
        { st with ns := st.ns + 1, failedRequestsCount := st.failedRequestsCount + 1 },
        c.reverse, true, false, some c⟩ := by
  have hu : updateCookiesIfNeeded o st = ⟨st, false, none⟩ := by
    unfold updateCookiesIfNeeded
    rw [if_pos ⟨hfresh, hnow⟩]
  simp only [callCleverbotAPI, hu, hapi]
  rfl

/-- Closed form of the retry loop when every attempt has a fresh cookie jar
and a network-rejected POST: the sleeps follow the
`retryBaseCooldown + jitter + 1000 + incrementalDelay` formula, the payload
builds consume the alternating context values, and the context ends as the
`fuel`-fold reverse of its starting value. -/
lemma interactLoop_transient (md5fn : String → String) (s lang : String)
    (oracles : Nat → AttemptOracle) (jit rnd : Nat → Nat)
    (hfail : ∀ k, ∃ status msg, (oracles k).apiResult = ApiResult.netError status msg) :
    ∀ (fuel i : Nat) (incD : Int) (c : List String) (st : ModuleState)
      (sleeps : List Int) (posts fetches : Nat) (builds : List (List String)),
      st.cookies.isSome = true →
      (∀ k, (oracles k).now - st.lastCookieUpdate < st.cookieExpirationTime) →
      (interactLoop md5fn s lang oracles jit rnd i fuel incD c st
          sleeps posts fetches builds).sleeps =
        sleeps ++ (List.range fuel).map
          (fun k => st.retryBaseCooldown + (jit (i + k) : Int) + 1000 +
            (incD + (incFrom rnd i k : Int))) ∧
      (interactLoop md5fn s lang oracles jit rnd i fuel incD c st
          sleeps posts fetches builds).builtFrom = builds ++ altFrom c fuel ∧
      (interactLoop md5fn s lang oracles jit rnd i fuel incD c st
          sleeps posts fetches builds).context = revPow c fuel := by
  intro fuel
  induction fuel with
  | zero =>
    intro i incD c st sleeps posts fetches builds _ _
    simp [interactLoop, altFrom, revPow]
  | succ fuel ih =>
    intro i incD c st sleeps posts fetches builds hfresh hnow
    obtain ⟨status, msg, hapi⟩ := hfail i
    have hcall := callCleverbotAPI_netError md5fn s c lang (oracles i) st status msg
      hfresh (hnow i) hapi
    rw [interactLoop, hcall]
    dsimp only
    have hresp : (JsError.mk ("Cleverbot API call failed: " ++ msg) none).response ≠ some 403 := by
      simp
    rw [if_neg hresp]
    simp only [show (if true = true then (1 : Nat) else 0) = 1 from rfl,
      show (if false = true then (1 : Nat) else 0) = 0 from rfl, if_true]
    have hih := ih (i + 1) (incD + ((rnd i : Int) + 1000)) c.reverse
      { st with ns := st.ns + 1, failedRequestsCount := st.failedRequestsCount + 1 }
      (sleeps ++ [st.retryBaseCooldown + (jit i : Int) + 1000 + incD])
      (posts + 1) (fetches + 0) (builds ++ [c]) hfresh hnow
    refine ⟨?_, ?_, ?_⟩
    · rw [hih.1]
      rw [List.range_succ_eq_map, List.map_cons, List.map_map, List.append_assoc]
      congr 1
      rw [List.singleton_append]
      congr 1
      · simp [incFrom]
      · congr 1
        funext k
        have harg : i + 1 + k = i + (k + 1) := by omega
        simp only [Function.comp, incFrom, harg]
        push_cast
        ring
    · rw [hih.2.1]
      simp [altFrom, List.append_assoc]
    · rw [hih.2.2]
      rfl

/-- C8: on a run of `interact` whose every attempt fails with a (non-ban)
network error, the delay slept after attempt `k` is exactly
`retryBaseCooldown + jitter(k) + 1000 + incrementalDelay(k)` where the
jitter draws lie in `[0, 2000)`, `incrementalDelay(0) = 0` and
`incrementalDelay(k+1) = incrementalDelay(k) + (growth(k) + 1000)` with
growth draws in `[0, 3000)`; consequently, for any fixed draws, the base
delay (the slept delay minus the attempt's own jitter) never decreases from
one retry to the next. -/
theorem C8_backoff_formula_and_monotone (md5fn : String → String) (s : String)
    (c : List String) (language : Option String) (oracles : Nat → AttemptOracle)
    (jit rnd : Nat → Nat) (st : ModuleState)
    (_hjit : ∀ k, jit k < 2000) (_hrnd : ∀ k, rnd k < 3000)
    (hfail : ∀ k, ∃ status msg, (oracles k).apiResult = ApiResult.netError status msg)
    (hfresh : st.cookies.isSome = true)
    (hnow : ∀ k, (oracles k).now - st.lastCookieUpdate < st.cookieExpirationTime) :
    (CleverBot.interact md5fn s c language oracles jit rnd st).sleeps =
      (List.range st.maxRetryAttempts.toNat).map
        (fun k => st.retryBaseCooldown + (jit k : Int) + 1000 + (incDelaySpec rnd k : Int)) ∧
    incDelaySpec rnd 0 = 0 ∧
    (∀ k, incDelaySpec rnd (k + 1) = incDelaySpec rnd k + (rnd k + 1000)) ∧
    (∀ k, st.retryBaseCooldown + 1000 + (incDelaySpec rnd k : Int) ≤
      st.retryBaseCooldown + 1000 + (incDelaySpec rnd (k + 1) : Int)) := by
  have h := (interactLoop_transient md5fn s (language.getD st.selectedLanguage) oracles jit rnd
    hfail st.maxRetryAttempts.toNat 0 0 c st [] 0 0 [] hfresh hnow).1
  refine ⟨?_, rfl, incDelaySpec_succ rnd, ?_⟩
  · rw [CleverBot.interact, h]
    simp only [List.nil_append, Nat.zero_add, zero_add, incDelaySpec]
  · intro k
    have := incDelaySpec_succ rnd k
    omega

/-- C8 witness: the formula theorem applied to a three-attempt run with all
draws 0 from the default configuration; the slept delays are
`3000 + 0 + 1000 + 0`, `+ 1000`, `+ 2000`. -/
theorem C8_backoff_formula_and_monotone_witness :
    (CleverBot.interact md5Stub "m" [] none timeoutOracle
      (fun _ => 0) (fun _ => 0) freshCookieState).sleeps = [4000, 5000, 6000] := by
  have h := C8_backoff_formula_and_monotone md5Stub "m" [] none timeoutOracle
    (fun _ => 0) (fun _ => 0) freshCookieState
    (fun _ => by show (0 : Nat) < 2000; decide) (fun _ => by show (0 : Nat) < 3000; decide)
    (fun _ => ⟨none, "timeout of 20000ms exceeded", rfl⟩)
    rfl (fun _ => by show (0 : Int) - 0 < 15768000; decide)
  rw [h.1]
  decide

/-- C10 (implicit): the payload build reverses the caller-supplied history
array in place, so after a run of `interact` the caller's array is the
iterated reverse of what it was (reversed once per attempt that built a
payload — in particular observably reordered after any run with an odd
number of builds), and within one run the successive builds consume the
shared array in alternating order: the build of attempt `k + 1` (0-based
index `k`) consumes the original value for even `k` and its reverse for odd
`k`, so every even-numbered attempt emits its `vText` fields in the
opposite order to the odd-numbered attempts. -/
theorem C10_history_reversed_in_place_alternating (md5fn : String → String) (s : String)
    (c : List String) (language : Option String) (oracles : Nat → AttemptOracle)
    (jit rnd : Nat → Nat) (st : ModuleState)
    (hfail : ∀ k, ∃ status msg, (oracles k).apiResult = ApiResult.netError status msg)
    (hfresh : st.cookies.isSome = true)
    (hnow : ∀ k, (oracles k).now - st.lastCookieUpdate < st.cookieExpirationTime) :
    (buildMainPayload md5fn s c (language.getD st.selectedLanguage)).2 = c.reverse ∧
    (CleverBot.interact md5fn s c language oracles jit rnd st).builtFrom =
      altFrom c st.maxRetryAttempts.toNat ∧
    (∀ k (h : k < (altFrom c st.maxRetryAttempts.toNat).length),
      (altFrom c st.maxRetryAttempts.toNat).get ⟨k, h⟩ =
        if k % 2 = 0 then c else c.reverse) ∧
    (CleverBot.interact md5fn s c language oracles jit rnd st).context =
      (if st.maxRetryAttempts.toNat % 2 = 0 then c else c.reverse) := by
  have h := interactLoop_transient md5fn s (language.getD st.selectedLanguage) oracles jit rnd
    hfail st.maxRetryAttempts.toNat 0 0 c st [] 0 0 [] hfresh hnow
  refine ⟨rfl, ?_, fun k hk => altFrom_get c _ k hk, ?_⟩
  · rw [CleverBot.interact, h.2.1]
    simp
  · rw [CleverBot.interact, h.2.2, revPow_eq]

/-- C10 witness: a three-attempt run over the history `["a", "b"]` builds
from `["a", "b"]`, `["b", "a"]`, `["a", "b"]` in turn and leaves the
caller's array reversed. -/
theorem C10_history_reversed_in_place_alternating_witness :
    (CleverBot.interact md5Stub "m" ["a", "b"] none timeoutOracle
      (fun _ => 0) (fun _ => 0) freshCookieState).builtFrom =
      [["a", "b"], ["b", "a"], ["a", "b"]] ∧
    (CleverBot.interact md5Stub "m" ["a", "b"] none timeoutOracle
      (fun _ => 0) (fun _ => 0) freshCookieState).context = ["b", "a"] := by
  have h := C10_history_reversed_in_place_alternating md5Stub "m" ["a", "b"] none
    timeoutOracle (fun _ => 0) (fun _ => 0) freshCookieState
    (fun _ => ⟨none, "timeout of 20000ms exceeded", rfl⟩)
    rfl (fun _ => by show (0 : Int) - 0 < 15768000; decide)
  refine ⟨?_, ?_⟩
  · rw [h.2.1]
    decide
  · rw [h.2.2.2]
    decide

/-- Every error thrown by the cookie refresh is a plain `new Error` without
a `response` field (index.js lines 81 and 83). -/
lemma updateCookiesIfNeeded_rejected_response_none (o : AttemptOracle) (st : ModuleState)
    (e : JsError) (h : (updateCookiesIfNeeded o st).err = some e) : e.response = none := by
  unfold updateCookiesIfNeeded at h
  split at h
  · simp at h
  · split at h
    · simp at h
    · split at h
      · injection h with h2
        rw [← h2]
      · injection h with h2
        rw [← h2]

/-- Every error thrown by one exchange is a plain `new Error` without a
`response` field: the `catch` of index.js line 129 re-wraps any failure
(including an axios 403) into `new Error('Cleverbot API call failed: ...')`,
and cookie-refresh errors are already wrapped. -/
lemma callCleverbotAPI_rejected_response_none (md5fn : String → String) (s : String)
    (c : List String) (lang : String) (o : AttemptOracle) (st : ModuleState)
    (e : JsError) (h : (callCleverbotAPI md5fn s c lang o st).result = .rejected e) :
    e.response = none := by
  unfold callCleverbotAPI at h
  dsimp only at h
  cases hu : (updateCookiesIfNeeded o st).err with
  | some e' =>
    rw [hu] at h
    dsimp only at h
    injection h with h2
    rw [h2] at hu
    exact updateCookiesIfNeeded_rejected_response_none o st e hu
  | none =>
    rw [hu] at h
    dsimp only at h
    cases ha : o.apiResult with
    | netError status msg =>
      rw [ha] at h
      try dsimp only at h
      injection h with h2
      rw [← h2]
    | response data =>
      rw [ha] at h
      try dsimp only at h
      by_cases hd : data = ""
      · rw [dif_pos hd] at h
        try dsimp only at h
        injection h with h2
        rw [← h2]
      · rw [dif_neg hd] at h
        try dsimp only at h
        by_cases hl : 3 ≤ (splitOnCR data).length
        · rw [dif_pos hl] at h
          simp at h
        · rw [dif_neg hl] at h
          simp at h

/-- C2 (evidence of the code bug): every error that reaches `interact`'s
`catch` lacks the `response` field its 403 check inspects, so the ban branch
of index.js lines 144-145 can never fire; concretely, on the spec's scenario
— HTTP 403 on every POST with `maxRetryAttempts = 5` — the run issues 5
POSTs (not 1), sleeps 5 backoff delays, and ends with the generic
exhausted-retries error instead of the Banned error. -/
theorem C2_forbidden_is_retried_not_short_circuited :
    (∀ (md5fn : String → String) (s : String) (c : List String) (lang : String)
      (o : AttemptOracle) (st : ModuleState) (e : JsError),
      (callCleverbotAPI md5fn s c lang o st).result = Settled.rejected e →
        e.response = none) ∧
    (CleverBot.interact md5Stub "hello" ["ctx"] none forbiddenOracle
      (fun _ => 0) (fun _ => 0) freshCookieState5).posts = 5 ∧
    (CleverBot.interact md5Stub "hello" ["ctx"] none forbiddenOracle
      (fun _ => 0) (fun _ => 0) freshCookieState5).sleeps.length = 5 ∧
    (CleverBot.interact md5Stub "hello" ["ctx"] none forbiddenOracle
      (fun _ => 0) (fun _ => 0) freshCookieState5).result =
      Settled.rejected
        ⟨"Failed to get a response from Cleverbot after 5 attempts.", none⟩ :=
  ⟨callCleverbotAPI_rejected_response_none, by decide, by decide, by decide⟩

/-- C2 witness: the first conjunct of the evidence theorem applied to the
concrete 403-rejected exchange. -/
theorem C2_forbidden_is_retried_not_short_circuited_witness :
    (JsError.mk "Cleverbot API call failed: Request failed with status code 403"
      none).response = none :=
  C2_forbidden_is_retried_not_short_circuited.1 md5Stub "x" [] "" (forbiddenOracle 0)
    freshCookieState
    ⟨"Cleverbot API call failed: Request failed with status code 403", none⟩
    (by decide)

/-- C3 counterexample: with a fresh cookie jar and a two-segment response
body on attempt 1, the run makes exactly one POST, sleeps no backoff, leaves
the session trio unset — and returns through the success path with no reply
(`undefined`) instead of being retried. -/
theorem C3_counterexample_malformed_not_retried :
    (CleverBot.interact md5Stub "hi" [] none malformedOracle
      (fun _ => 0) (fun _ => 0) freshCookieState).result = Settled.resolved none ∧
    (CleverBot.interact md5Stub "hi" [] none malformedOracle
      (fun _ => 0) (fun _ => 0) freshCookieState).posts = 1 ∧
    (CleverBot.interact md5Stub "hi" [] none malformedOracle
      (fun _ => 0) (fun _ => 0) freshCookieState).sleeps = [] ∧
    (CleverBot.interact md5Stub "hi" [] none malformedOracle
      (fun _ => 0) (fun _ => 0) freshCookieState).state.cbsId = none ∧
    (CleverBot.interact md5Stub "hi" [] none malformedOracle
      (fun _ => 0) (fun _ => 0) freshCookieState).state.xai = none ∧
    (CleverBot.interact md5Stub "hi" [] none malformedOracle
      (fun _ => 0) (fun _ => 0) freshCookieState).state.lastResponse = none := by
  refine ⟨by decide, by decide, by decide, by decide, by decide, by decide⟩

/-- One exchange whose POST resolves with a non-empty body of fewer than 3
carriage-return segments: the success counter is bumped, the session trio is
left untouched, and the function resolves with `undefined`. -/
lemma callCleverbotAPI_malformed (md5fn : String → String) (s : String) (c : List String)
    (lang : String) (o : AttemptOracle) (st : ModuleState) (data : String)
    (hcookie : (updateCookiesIfNeeded o st).err = none)
    (hapi : o.apiResult = .response data)
    (hne : data ≠ "")
    (hlen : (splitOnCR data).length < 3) :
    callCleverbotAPI md5fn s c lang o st =
      ⟨.resolved none,
        { (updateCookiesIfNeeded o st).state with
            ns := (updateCookiesIfNeeded o st).state.ns + 1
            successfulRequestsCount :=
              (updateCookiesIfNeeded o st).state.successfulRequestsCount + 1 },
        c.reverse, true, (updateCookiesIfNeeded o st).fetched, some c⟩ := by
  have hlen' : ¬ 3 ≤ (splitOnCR data).length := by omega
  simp only [callCleverbotAPI, hcookie, hapi]
  rw [dif_neg hne, dif_neg hlen']
  rfl

/-- C3 amended: for every non-empty response body splitting into fewer than
3 segments, the exchange does not populate any session-state field (`cbsId`,
`xai` and `lastResponse` keep their previous values) — but the attempt is
NOT treated as a failure by the retry orchestrator: the exchange resolves
with no reply (`undefined`), which `interact` immediately returns to the
caller through the success path, with exactly one POST and no backoff
sleep. -/
theorem C3_malformed_no_session_state_but_returned_as_success (md5fn : String → String)
    (s : String) (c : List String) (language : Option String)
    (oracles : Nat → AttemptOracle) (jit rnd : Nat → Nat) (st : ModuleState) (data : String)
    (hfuel : 1 ≤ st.maxRetryAttempts.toNat)
    (hcookie : (updateCookiesIfNeeded (oracles 0) st).err = none)
    (hapi : (oracles 0).apiResult = ApiResult.response data)
    (hne : data ≠ "")
    (hlen : (splitOnCR data).length < 3) :
    (CleverBot.interact md5fn s c language oracles jit rnd st).result =
      Settled.resolved none ∧
    (CleverBot.interact md5fn s c language oracles jit rnd st).posts = 1 ∧
    (CleverBot.interact md5fn s c language oracles jit rnd st).sleeps = [] ∧
    (CleverBot.interact md5fn s c language oracles jit rnd st).state.cbsId = st.cbsId ∧
    (CleverBot.interact md5fn s c language oracles jit rnd st).state.xai = st.xai ∧
    (CleverBot.interact md5fn s c language oracles jit rnd st).state.lastResponse =
      st.lastResponse := by
  obtain ⟨f, hf⟩ : ∃ f, st.maxRetryAttempts.toNat = f + 1 :=
    ⟨st.maxRetryAttempts.toNat - 1, by omega⟩
  have hcall := callCleverbotAPI_malformed md5fn s c (language.getD st.selectedLanguage)
    (oracles 0) st data hcookie hapi hne hlen
  have htrio := updateCookiesIfNeeded_trio (oracles 0) st
  rw [CleverBot.interact, hf]
  rw [interactLoop, hcall]
  exact ⟨rfl, rfl, rfl, htrio.1, htrio.2.1, htrio.2.2⟩

/-- C3 witness: the amended theorem applied at the concrete two-segment
response `"Hello.\rWXC0ABC"` from the fresh-cookie state. -/
theorem C3_malformed_no_session_state_but_returned_as_success_witness :
    (CleverBot.interact md5Stub "hey" ["x"] none malformedOracle
      (fun _ => 0) (fun _ => 0) freshCookieState).result = Settled.resolved none ∧
    (CleverBot.interact md5Stub "hey" ["x"] none malformedOracle
      (fun _ => 0) (fun _ => 0) freshCookieState).posts = 1 ∧
    (CleverBot.interact md5Stub "hey" ["x"] none malformedOracle
      (fun _ => 0) (fun _ => 0) freshCookieState).sleeps = [] ∧
    (CleverBot.interact md5Stub "hey" ["x"] none malformedOracle
      (fun _ => 0) (fun _ => 0) freshCookieState).state.cbsId = freshCookieState.cbsId ∧
    (CleverBot.interact md5Stub "hey" ["x"] none malformedOracle
      (fun _ => 0) (fun _ => 0) freshCookieState).state.xai = freshCookieState.xai ∧
    (CleverBot.interact md5Stub "hey" ["x"] none malformedOracle
      (fun _ => 0) (fun _ => 0) freshCookieState).state.lastResponse =
      freshCookieState.lastResponse :=
  C3_malformed_no_session_state_but_returned_as_success md5Stub "hey" ["x"] none
    malformedOracle (fun _ => 0) (fun _ => 0) freshCookieState "Hello.\rWXC0ABC"
    (by decide) (by decide) rfl (by decide) (by decide)

/-- C9: `CleverBot.newSession` sets exactly the six Session State fields
(cookie jar, cookie refresh timestamp, session id, auth token, exchange
counter, last reply) to their unset/zero initial values and changes nothing
else: every configuration setting and both request counters keep the values
they had before the reset. -/
theorem C9_newSession_resets_session_only (st : ModuleState) :
    (CleverBot.newSession st).cookies = initialState.cookies ∧
    (CleverBot.newSession st).lastCookieUpdate = initialState.lastCookieUpdate ∧
    (CleverBot.newSession st).cbsId = initialState.cbsId ∧
    (CleverBot.newSession st).xai = initialState.xai ∧
    (CleverBot.newSession st).ns = initialState.ns ∧
    (CleverBot.newSession st).lastResponse = initialState.lastResponse ∧
    (CleverBot.newSession st).debug = st.debug ∧
    (CleverBot.newSession st).selectedLanguage = st.selectedLanguage ∧
    (CleverBot.newSession st).maxRetryAttempts = st.maxRetryAttempts ∧
    (CleverBot.newSession st).retryBaseCooldown = st.retryBaseCooldown ∧
    (CleverBot.newSession st).cookieExpirationTime = st.cookieExpirationTime ∧
    (CleverBot.newSession st).successfulRequestsCount = st.successfulRequestsCount ∧
    (CleverBot.newSession st).failedRequestsCount = st.failedRequestsCount :=
  ⟨rfl, rfl, rfl, rfl, rfl, rfl, rfl, rfl, rfl, rfl, rfl, rfl, rfl⟩

/-- C4: for every message, history and language, the transmitted body equals
`P ++ P ++ checksum` where `P` is the pre-checksum payload and the checksum
is the digest of exactly the characters at indices 7 through 32 of `P`
(`drop 7, take 26`); moreover `P` always has at least 33 characters, so that
window lies entirely inside `P`. -/
theorem C4_body_duplicates_payload_and_appends_checksum (md5fn : String → String)
    (stimulus : String) (context : List String) (language : String) :
    (buildMainPayload md5fn stimulus context language).1 =
      preChecksumPayload stimulus context language ++
        preChecksumPayload stimulus context language ++
        md5fn (((preChecksumPayload stimulus context language).data.drop 7).take 26).asString ∧
    33 ≤ (preChecksumPayload stimulus context language).length := by
  constructor
  · simp [buildMainPayload, jsSubstring, String.append_assoc]
  · have hlit : ("cb_config_scripting=no&islearning=1&icognoid=wsf&icognocheck=" : String).length = 61 := by decide
    simp only [preChecksumPayload, String.length_append]
    omega

/-- C5 counterexample: `buildMainPayload` is not effect-free — at the concrete
input with history `["a", "b"]` the caller-supplied history array is left
reversed (`["b", "a"]`) after the call, refuting "the caller-supplied history
argument is left unchanged". -/
theorem C5_counterexample_history_mutated :
    (buildMainPayload (fun _ => "") "hi" ["a", "b"] "").2 = ["b", "a"] ∧
    (["b", "a"] : List String) ≠ ["a", "b"] := by decide

/-- C5 amended: the Payload Builder is deterministic — two calls with equal
inputs yield byte-identical outputs — but it is not effect-free: its one side
effect is that the caller-supplied history array is reversed in place
(`context.reverse()` on index.js line 40), so after the call the caller's
array holds the reverse of its previous value. -/
theorem C5_deterministic_but_reverses_history (md5fn : String → String) (stimulus : String)
    (context₁ context₂ : List String) (language : String) (h : context₁ = context₂) :
    buildMainPayload md5fn stimulus context₁ language =
      buildMainPayload md5fn stimulus context₂ language ∧
    (buildMainPayload md5fn stimulus context₁ language).2 = context₁.reverse :=
  ⟨by rw [h], rfl⟩

/-- C5 witness: the amended theorem applied at a concrete input. -/
theorem C5_deterministic_but_reverses_history_witness :
    buildMainPayload (fun _ => "") "x" ["p", "q"] "" =
      buildMainPayload (fun _ => "") "x" ["p", "q"] "" ∧
    (buildMainPayload (fun _ => "") "x" ["p", "q"] "").2 = ["p", "q"].reverse :=
  C5_deterministic_but_reverses_history (fun _ => "") "x" ["p", "q"] ["p", "q"] "" rfl

/-- C6: the Payload Builder emits the `vText` fields from the reversed
history: field `i` carries the url-encoded entry at 0-based position `i` of
the reversed history, so for a 2-element history `vText0` carries the last
(most recent) entry; and the transmitted body starts with the stimulus field
followed by exactly these fields in order. -/
theorem C6_vtext_fields_most_recent_first (context : List String) :
    (∀ i : Nat, (vTextFields context).get? i =
      (context.reverse.get? i).map fun msg =>
        "vText" ++ toString i ++ "=" ++ encodeURIComponent msg ++ "&") ∧
    (∀ a b : String, vTextFields [a, b] =
      ["vText0=" ++ encodeURIComponent b ++ "&", "vText1=" ++ encodeURIComponent a ++ "&"]) ∧
    (∀ (md5fn : String → String) (stimulus language : String), ∃ tail : String,
      (buildMainPayload md5fn stimulus context language).1 =
        "stimulus=" ++ encodeURIComponent stimulus ++ "&" ++
          String.join (vTextFields context) ++ tail) := by
  refine ⟨fun i => ?_, fun a b => ?_, fun md5fn stimulus language => ?_⟩
  · simp [vTextFields, List.get?_map, List.get?_enum, Option.map_map]
    rfl
  · have h0 : ("vText" ++ toString (0 : Nat) ++ "=" : String) = "vText0=" := by decide
    have h1 : ("vText" ++ toString (1 : Nat) ++ "=" : String) = "vText1=" := by decide
    have hfields : vTextFields [a, b] =
        [("vText" ++ toString (0 : Nat) ++ "=") ++ encodeURIComponent b ++ "&",
         ("vText" ++ toString (1 : Nat) ++ "=") ++ encodeURIComponent a ++ "&"] := rfl
    rw [h0, h1] at hfields
    exact hfields
  · refine ⟨(if language ≠ "" then "cb_config_language=" ++ language ++ "&" else "") ++
      "cb_config_scripting=no&islearning=1&icognoid=wsf&icognocheck=" ++
      (preChecksumPayload stimulus context language ++
        md5fn (jsSubstring (preChecksumPayload stimulus context language) 7 33)), ?_⟩
    simp [buildMainPayload, preChecksumPayload, String.append_assoc]
